import Mathlib

/-
Shallow embedding of the SRFax python client library (srfax/srfax.py).

The library talks to a SOAP endpoint through the suds library.  The embedding
models the pure request-construction / validation / response-normalization
logic of the module:

* loosely typed SOAP values are modelled by the inductive type `RVal`
  (`sudsText` stands for a `suds.sax.text.Text` instance, `pyStr` for a plain
  python string, `record` for a suds object coercible to a dict, `null` for
  python `None`);
* a raw SOAP reply is `RawReply` (`absent` stands for a reply that is `None`);
* python exceptions escaping a function are modelled by the `PyOutcome`
  carrier: `srfax` is a raised `SRFaxError`, `typeError` a raised `TypeError`
  (or comparable built-in error), `keyError` a raised `KeyError`;
* the filesystem-dependent helpers (`os.path.basename`,
  `SRFax.get_file_content`) are abstracted as function parameters of
  `queue_fax`; the SOAP transport is abstracted by handing the raw reply to
  the operation directly (the code path modelled is the one where the
  transport call itself returned without raising).

String scanning helpers are written over `String.data` so that every
definition evaluates by kernel reduction.
-/

/-- Python truth-like values appearing in suds replies. -/
inductive RVal where
  | null : RVal
  | bool : Bool → RVal
  | pyStr : String → RVal
  | sudsText : String → RVal
  | list : List RVal → RVal
  | record : List (String × RVal) → RVal

/-- Raw SOAP reply: either absent (python `None`) or a dict-like object. -/
inductive RawReply where
  | absent : RawReply
  | dict : List (String × RVal) → RawReply

/-- The `SRFaxError` exception of srfax.py: error code, message (which the
code sometimes sets to a non-string result payload, hence `RVal`) and the
retry flag.  The optional `cause` attribute is not needed by any property
proved here and is omitted. -/
structure SRFaxError where
  error_code : String
  message : RVal
  retry : Bool

/-- Outcome of running a piece of python code: a value, a raised
`SRFaxError`, a raised `TypeError`-like built-in error, or a raised
`KeyError`. -/
inductive PyOutcome (α : Type) where
  | ok : α → PyOutcome α
  | srfax : SRFaxError → PyOutcome α
  | typeError : String → PyOutcome α
  | keyError : String → PyOutcome α

/-- Does the character list start with the given pattern list? -/
def charsStartWith : List Char → List Char → Bool
  | [], _ => true
  | _ :: _, [] => false
  | c :: cs, d :: ds => c = d && charsStartWith cs ds

/-- Does the character list contain the pattern list as a contiguous run? -/
def charsContain (pat : List Char) : List Char → Bool
  | [] => charsStartWith pat []
  | c :: rest => charsStartWith pat (c :: rest) || charsContain pat rest

/-- Python `pat in s` for strings: contiguous substring test. -/
def strContains (s pat : String) : Bool := charsContain pat.data s.data

/-- Python `s.startswith(pat)` analogue, used to state key-shape facts. -/
def strStartsWith (s pat : String) : Bool := charsStartWith pat.data s.data

/-- Python truthiness of an `RVal` (`if not result[i]` in the code). -/
def isFalsy : RVal → Bool
  | .null => true
  | .bool b => !b
  | .pyStr s => s.data.isEmpty
  | .sudsText s => s.data.isEmpty
  | .list vs => vs.isEmpty
  | .record kvs => kvs.isEmpty

/-- Python `v == lit` for a string literal `lit`: `suds.sax.text.Text` is a
`str` subclass, so both kinds of strings compare by their text; any other
value compares unequal to a string. -/
def valEqStr (v : RVal) (lit : String) : Bool :=
  match v with
  | .pyStr s => s = lit
  | .sudsText s => s = lit
  | _ => false

/-- First-match association lookup (python dict access on string keys). -/
def lookupKV : List (String × RVal) → String → Option RVal
  | [], _ => none
  | (k, v) :: rest, key => if k = key then some v else lookupKV rest key

mutual

/-- Whether a value survives `json.dumps` as the value slot of a dict.
Plain strings and `Text` (a `str` subclass) serialize as strings, `None`,
booleans and lists serialize structurally, but a nested suds object
(`record`) is not JSON-serializable and makes the round trip raise. -/
def serializeVal : RVal → Option RVal
  | .pyStr s => some (.pyStr s)
  | .sudsText s => some (.pyStr s)
  | .null => some .null
  | .bool b => some (.bool b)
  | .record _ => none
  | .list vs => (serializeList vs).map RVal.list

/-- Pointwise `serializeVal` over a list, first failure aborting. -/
def serializeList : List RVal → Option (List RVal)
  | [] => some []
  | v :: vs =>
    match serializeVal v, serializeList vs with
    | some w, some ws => some (w :: ws)
    | _, _ => none

end

/-- The effect of `json.loads(json.dumps(dict(x)))` on the key/value pairs of
a suds record: each value must serialize. -/
def serializeKVs : List (String × RVal) → Option (List (String × RVal))
  | [] => some []
  | (k, v) :: rest =>
    match serializeVal v, serializeKVs rest with
    | some w, some ws => some ((k, w) :: ws)
    | _, _ => none

/-- One iteration of the coercion loop of `SRFax.process_response`: falsy
elements are skipped unchanged, `Text` elements become plain strings, and
any other element goes through `dict(...)` (which only succeeds on a
record) followed by the JSON round trip. -/
def coerceElem (v : RVal) : Option RVal :=
  if isFalsy v then some v
  else
    match v with
    | .sudsText s => some (.pyStr s)
    | .record kvs => (serializeKVs kvs).map RVal.record
    | _ => none

/-- The coercion loop over a result list. -/
def coerceElems : List RVal → Option (List RVal)
  | [] => some []
  | v :: vs =>
    match coerceElem v, coerceElems vs with
    | some w, some ws => some (w :: ws)
    | _, _ => none

/-- The `try` block of `SRFax.process_response`: a list is coerced
elementwise, a bare `Text` becomes a plain string, anything else is left
untouched. -/
def coerceResult : RVal → Option RVal
  | .list vs => (coerceElems vs).map RVal.list
  | .sudsText s => some (.pyStr s)
  | v => some v

mutual

/-- Python `str()` rendering of an `RVal`, used for the `%s` interpolation
in error messages.  Braces are written with hex escapes. -/
def reprRVal : RVal → String
  | .null => "None"
  | .bool true => "True"
  | .bool false => "False"
  | .pyStr s => s
  | .sudsText s => s
  | .list vs => "[" ++ reprRValList vs ++ "]"
  | .record kvs => "\x7b" ++ reprRValKVs kvs ++ "\x7d"

/-- Comma-separated rendering of list elements. -/
def reprRValList : List RVal → String
  | [] => ""
  | [v] => reprRVal v
  | v :: rest => reprRVal v ++ ", " ++ reprRValList rest

/-- Comma-separated rendering of key/value pairs. -/
def reprRValKVs : List (String × RVal) → String
  | [] => ""
  | [(k, v)] => k ++ ": " ++ reprRVal v
  | (k, v) :: rest => k ++ ": " ++ reprRVal v ++ ", " ++ reprRValKVs rest

end

/-- Rendering of a whole raw reply (for the missing-field error message). -/
def reprReply : RawReply → String
  | .absent => "None"
  | .dict kvs => "\x7b" ++ reprRValKVs kvs ++ "\x7d"

/-- The `errmsg` computation of `SRFax.process_response` for a non-Success
status.  Python's `'ErrorCode' in errmsg[0]` is key membership on a dict,
substring search on a string, element membership on a list, and a raised
`TypeError` on `None` or a bool; after a positive `in` on a non-dict,
`errmsg[0]['ErrorCode']` itself raises a `TypeError`.  These raises happen
outside the `try` block, so they escape unclassified. -/
def errmsgOf (result : RVal) : PyOutcome RVal :=
  match result with
  | .list [e] =>
    match e with
    | .record kvs =>
      match lookupKV kvs "ErrorCode" with
      | some v => .ok v
      | none => .ok result
    | .pyStr s =>
      if strContains s "ErrorCode" then .typeError "string indices must be integers"
      else .ok result
    | .sudsText s =>
      if strContains s "ErrorCode" then .typeError "string indices must be integers"
      else .ok result
    | .list inner =>
      if inner.any (fun w => valEqStr w "ErrorCode") then
        .typeError "list indices must be integers"
      else .ok result
    | .null => .typeError "argument of type NoneType is not iterable"
    | .bool _ => .typeError "argument of type bool is not iterable"
  | r => .ok r

/-- The tail of `SRFax.process_response` once the reply is known to be
truthy and to carry both a `Status` and a `Result` field. -/
def processChecked (sv rv : RVal) : PyOutcome RVal :=
  match coerceResult rv with
  | none =>
    .srfax ⟨"INVALIDRESPONSE", .pyStr "Error converting SOAP response", true⟩
  | some result =>
    if valEqStr sv "Success" then
      match result with
      | .null => .ok (.bool true)
      | r => .ok r
    else
      match errmsgOf result with
      | .ok errmsg => .srfax ⟨"REQUESTFAILED", errmsg, false⟩
      | e => e

/-- Embedding of `SRFax.process_response`.  A reply that is python-falsy
(`None` or an empty mapping) hits the `Empty response` branch first; then
both fields must be present; then the result is coerced inside a
`try`/`except`; then the status is checked; finally a `None` result is
replaced by `True`. -/
def process_response (response : RawReply) : PyOutcome RVal :=
  match response with
  | .absent => .srfax ⟨"INVALIDRESPONSE", .pyStr "Empty response", true⟩
  | .dict fields =>
    if fields.isEmpty then
      .srfax ⟨"INVALIDRESPONSE", .pyStr "Empty response", true⟩
    else
      match lookupKV fields "Status", lookupKV fields "Result" with
      | some sv, some rv => processChecked sv rv
      | _, _ =>
        .srfax ⟨"INVALIDRESPONSE",
          .pyStr ("Status and/or Result not in response: "
            ++ reprReply (.dict fields)), true⟩

/-- Python `len(response)`-then-index unwrap used by `get_fax_status` and
`retrieve_fax` (`if len(response) == 1: response = response[0]`).  `len` on
a bool or `None` raises a `TypeError`; a one-character string indexes to
itself; a one-key dict indexed by the integer `0` raises a `KeyError`. -/
def unwrap_single (r : RVal) : PyOutcome RVal :=
  match r with
  | .bool _ => .typeError "object of type bool has no len"
  | .null => .typeError "object of type NoneType has no len"
  | .list [v] => .ok v
  | .list vs => .ok (.list vs)
  | .pyStr s => .ok (.pyStr s)
  | .sudsText s => .ok (.sudsText s)
  | .record kvs => if kvs.length = 1 then .keyError "0" else .ok (.record kvs)

/-- Python-2 ASCII `\d`. -/
def isPyDigit (c : Char) : Bool := '0' ≤ c && c ≤ '9'

/-- Embedding of `SRFax.is_e164_number`: `re.match(r'^\+\d\x7b7,15\x7d$', s)`.
Python's `$` also matches just before a single trailing newline, so the
digit run is taken after stripping at most one final `'\n'`. -/
def is_e164_number (s : String) : Bool :=
  match s.data with
  | '+' :: rest =>
    let core := if rest.getLast? = some '\n' then rest.dropLast else rest
    core.all isPyDigit && decide (7 ≤ core.length) && decide (core.length ≤ 15)
  | _ => false

/-- Embedding of `SRFax.is_nanp_number`: `re.match(r'^\+1', s)`. -/
def is_nanp_number (s : String) : Bool :=
  match s.data with
  | '+' :: '1' :: _ => true
  | _ => false

/-- Embedding of `SRFax.verify_fax_numbers` on an input already in list form
(the code wraps a bare string into a one-element list first).  The loop
raises `TypeError` at the first number failing the E.164 check; a NANP
number keeps everything after the `+`, any other number is prefixed with
`011` after dropping the `+`. -/
def verify_fax_numbers : List String → Except String (List String)
  | [] => .ok []
  | n :: rest =>
    if is_e164_number n then
      let out := if is_nanp_number n then n.drop 1 else "011" ++ n.drop 1
      match verify_fax_numbers rest with
      | .ok outs => .ok (out :: outs)
      | .error e => .error e
    else
      .error ("Number not in E.164 format: " ++ n)

/-- Client construction state: credentials plus the optional defaults
(`caller_id`, `sender_email`, `account_code`). -/
structure SRFaxState where
  access_id : String
  access_pwd : String
  caller_id : Option String
  sender_email : Option String
  account_code : Option String

/-- Python `a or b` on optional strings: `None` and the empty string are
falsy. -/
def pyOrS : Option String → Option String → Option String
  | some s, b => if s.data.isEmpty then b else some s
  | none, b => b

/-- Embedding of `SRFax.verify_parameters`: every value must be non-`None`,
else a `TypeError` names the offending key. -/
def verify_parameters : List (String × Option String) → Except String Unit
  | [] => .ok ()
  | (k, none) :: _ => .error (k ++ " not set")
  | (_, some _) :: rest => verify_parameters rest

/-- Python `'|'.join`. -/
def pyJoin (sep : String) : List String → String
  | [] => ""
  | [s] => s
  | s :: rest => s ++ sep ++ pyJoin sep rest

/-- Outcome of an operation that stops at the RPC boundary: either the
request it would issue (method name plus parameter mapping), or a raised
`TypeError`, or a raised plain `Exception`. -/
inductive RequestOutcome where
  | request : String → List (String × Option String) → RequestOutcome
  | typeError : String → RequestOutcome
  | exn : String → RequestOutcome
deriving DecidableEq

/-- The file-numbering loop of `SRFax.queue_fax`: for the file at index `i`
(0-based) it adds `sFileName_<i+1>` mapped to the basename and
`sFileContent_<i+1>` mapped to the encoded content. -/
def fileParams (basename file_content : String → String) :
    Nat → List String → List (String × Option String)
  | _, [] => []
  | i, p :: rest =>
    ("sFileName_" ++ toString (i + 1), some (basename p)) ::
    ("sFileContent_" ++ toString (i + 1), some (file_content p)) ::
    fileParams basename file_content (i + 1) rest

/-- The filename-numbering loop of `SRFax.delete_fax`. -/
def deleteFileParams : Nat → List String → List (String × Option String)
  | _, [] => []
  | i, f :: rest =>
    ("sFileName_" ++ toString (i + 1), some f) :: deleteFileParams (i + 1) rest

/-- Embedding of `SRFax.queue_fax` up to the RPC call, with the filesystem
helpers (`os.path.basename`, `SRFax.get_file_content`) abstracted as
function parameters and both string-or-list inputs already in list form. -/
def queue_fax (st : SRFaxState) (to_fax_number : List String)
    (filepath : List String) (caller_id sender_email account_code : Option String)
    (basename file_content : String → String) : RequestOutcome :=
  match verify_fax_numbers to_fax_number with
  | .error e => .typeError e
  | .ok nums =>
    let fax_type := if nums.length > 1 then "BROADCAST" else "SINGLE"
    let to_fax := pyJoin "|" nums
    if filepath.length > 5 then .exn "More than 5 files defined in filepath"
    else
      let params : List (String × Option String) :=
        [("access_id", some st.access_id),
         ("access_pwd", some st.access_pwd),
         ("sCallerID", pyOrS caller_id st.caller_id),
         ("sSenderEmail", pyOrS sender_email st.sender_email),
         ("sFaxType", some fax_type),
         ("sToFaxNumber", some to_fax),
         ("sAccountCode", pyOrS (pyOrS account_code st.account_code) (some ""))]
      match verify_parameters params with
      | .error e => .typeError e
      | .ok _ =>
        .request "Queue_Fax" (params ++ fileParams basename file_content 0 filepath)

/-- Embedding of `SRFax.delete_fax` up to the RPC call. -/
def delete_fax (st : SRFaxState) (fax_filename : List String)
    (folder : Option String) : RequestOutcome :=
  if fax_filename.length > 5 then .exn "More than 5 files defined in fax_filename"
  else
    let params : List (String × Option String) :=
      [("access_id", some st.access_id),
       ("access_pwd", some st.access_pwd),
       ("sDirection", folder)]
    match verify_parameters params with
    | .error e => .typeError e
    | .ok _ => .request "Delete_Fax" (params ++ deleteFileParams 0 fax_filename)

/-- Embedding of `SRFax.get_fax_status` for the code path where the
transport returned `reply` without raising: parameter check, response
normalization, then the one-element unwrap. -/
def get_fax_status (st : SRFaxState) (fax_id : Option String)
    (reply : RawReply) : PyOutcome RVal :=
  match verify_parameters
      [("access_id", some st.access_id), ("access_pwd", some st.access_pwd),
       ("sFaxDetailID", fax_id)] with
  | .error e => .typeError e
  | .ok _ =>
    match process_response reply with
    | .ok r => unwrap_single r
    | e => e

/-- Embedding of `SRFax.retrieve_fax` for the code path where the transport
returned `reply` without raising. -/
def retrieve_fax (st : SRFaxState) (fax_filename folder : Option String)
    (reply : RawReply) : PyOutcome RVal :=
  match verify_parameters
      [("access_id", some st.access_id), ("access_pwd", some st.access_pwd),
       ("sFaxFileName", fax_filename), ("sDirection", folder)] with
  | .error e => .typeError e
  | .ok _ =>
    match process_response reply with
    | .ok r => unwrap_single r
    | e => e

/-- String value of an `RVal` when it is a python string (either a plain
`str` or a `Text` instance, both of which are `str` values in python). -/
def pyStringValue : RVal → Option String
  | .pyStr s => some s
  | .sudsText s => some s
  | _ => none

theorem process_response_pair (sv rv : RVal) :
    process_response (.dict [("Status", sv), ("Result", rv)]) = processChecked sv rv := rfl

/-- Shape of a coerced plain-text element: empty texts are falsy and are
skipped unchanged, every other text becomes a plain string. -/
def coercedText (s : String) : RVal :=
  if s.data.isEmpty then .sudsText s else .pyStr s

theorem pyStringValue_coercedText (s : String) :
    pyStringValue (coercedText s) = some s := by
  unfold coercedText
  split <;> rfl

theorem coerceElem_sudsText (s : String) :
    coerceElem (.sudsText s) = some (coercedText s) := by
  unfold coerceElem coercedText
  by_cases h : s.data.isEmpty
  · simp [isFalsy, h]
  · simp [isFalsy, h]

theorem coerceElems_text_list (ss : List String) :
    coerceElems (ss.map RVal.sudsText) = some (ss.map coercedText) := by
  induction ss with
  | nil => rfl
  | cons s rest ih =>
    rw [List.map_cons, List.map_cons]
    unfold coerceElems
    rw [coerceElem_sudsText, ih]

/-- C1: a success reply whose result is a sequence of plain-text strings is
normalized to a sequence of python strings with the same text values in the
same order, rather than failing. -/
theorem c1_success_text_list (ss : List String) :
    ∃ vs : List RVal,
      process_response (.dict [("Status", .sudsText "Success"),
          ("Result", .list (ss.map RVal.sudsText))]) = .ok (.list vs)
        ∧ vs.map pyStringValue = ss.map some := by
  refine ⟨ss.map coercedText, ?_, ?_⟩
  · rw [process_response_pair]
    unfold processChecked
    rw [show coerceResult (.list (ss.map RVal.sudsText))
        = some (.list (ss.map coercedText)) by
      simp [coerceResult, coerceElems_text_list ss]]
    rfl
  · simp [List.map_map, Function.comp, pyStringValue_coercedText]

/-- C2: a NANP E.164 number (matching the pattern and starting with `+1`) is
normalized by dropping only the leading `+`, keeping the `1`. -/
theorem c2_nanp_number_normalization (s : String)
    (h1 : is_e164_number s = true) (h2 : is_nanp_number s = true) :
    verify_fax_numbers [s] = .ok [s.drop 1] := by
  simp [verify_fax_numbers, h1, h2]

theorem c2_witness :
    is_e164_number "+12025550123" = true ∧ is_nanp_number "+12025550123" = true
      ∧ verify_fax_numbers ["+12025550123"] = .ok ["12025550123"] :=
  ⟨rfl, rfl, c2_nanp_number_normalization "+12025550123" rfl rfl⟩

/-- C3 counterexample: the code normalizes `+442071838750` to
`011442071838750`, not to the spec's example value `01144207183875` (the
spec's expected string dropped the final digit). -/
theorem c3_counterexample :
    verify_fax_numbers ["+442071838750"] = .ok ["011442071838750"]
      ∧ ("011442071838750" : String) ≠ "01144207183875" :=
  ⟨rfl, by decide⟩

/-- C3 (amended): a non-NANP E.164 number is normalized to `011` followed by
exactly the digits after the `+`; in particular `+442071838750` normalizes
to `011442071838750`. -/
theorem c3_intl_number_normalization (s : String)
    (h1 : is_e164_number s = true) (h2 : is_nanp_number s = false) :
    verify_fax_numbers [s] = .ok ["011" ++ s.drop 1] := by
  simp [verify_fax_numbers, h1, h2]

theorem c3_witness :
    is_e164_number "+442071838750" = true ∧ is_nanp_number "+442071838750" = false
      ∧ verify_fax_numbers ["+442071838750"] = .ok ["011442071838750"] :=
  ⟨rfl, rfl, c3_intl_number_normalization "+442071838750" rfl rfl⟩

/-- C4: a destination string failing the E.164 check makes normalization
fail with an error naming the offending number: directly for a
single-element input, and for any input sequence containing such a string
the whole normalization fails with an error naming an offending (non-E.164)
member of the sequence. -/
theorem c4_invalid_number_rejected :
    (∀ s : String, is_e164_number s = false →
      verify_fax_numbers [s] = .error ("Number not in E.164 format: " ++ s))
    ∧ ∀ (l : List String) (s : String), s ∈ l → is_e164_number s = false →
        ∃ t, t ∈ l ∧ is_e164_number t = false
          ∧ verify_fax_numbers l = .error ("Number not in E.164 format: " ++ t) := by
  constructor
  · intro s h
    simp [verify_fax_numbers, h]
  · intro l
    induction l with
    | nil => intro s hs; cases hs
    | cons n rest ih =>
      intro s hs hbad
      cases hn : is_e164_number n with
      | false =>
        exact ⟨n, List.mem_cons_self n rest, hn, by simp [verify_fax_numbers, hn]⟩
      | true =>
        rcases List.mem_cons.mp hs with rfl | hs'
        · rw [hn] at hbad; cases hbad
        · obtain ⟨t, htmem, htbad, heq⟩ := ih s hs' hbad
          exact ⟨t, List.mem_cons_of_mem n htmem, htbad,
            by simp [verify_fax_numbers, hn, heq]⟩

theorem c4_witness :
    verify_fax_numbers ["+12345"] = .error ("Number not in E.164 format: " ++ "+12345")
      ∧ ∃ t, t ∈ ["12025550123", "+12345"] ∧ is_e164_number t = false
        ∧ verify_fax_numbers ["12025550123", "+12345"]
            = .error ("Number not in E.164 format: " ++ t) :=
  ⟨c4_invalid_number_rejected.1 "+12345" rfl,
   c4_invalid_number_rejected.2 ["12025550123", "+12345"] "+12345"
     (by simp) rfl⟩
theorem pyOrS_some (x : Option String) (t : String) :
    ∃ u, pyOrS x (some t) = some u := by
  cases x with
  | none => exact ⟨t, rfl⟩
  | some s =>
    by_cases h : s.data.isEmpty
    · exact ⟨t, by simp [pyOrS, h]⟩
    · exact ⟨s, by simp [pyOrS, h]⟩

theorem fileParams_mem (bn fc : String → String) :
    ∀ (files : List String) (j i : Nat) (h : i < files.length),
      ("sFileName_" ++ toString (j + i + 1), some (bn (files.get ⟨i, h⟩)))
          ∈ fileParams bn fc j files
        ∧ ("sFileContent_" ++ toString (j + i + 1), some (fc (files.get ⟨i, h⟩)))
          ∈ fileParams bn fc j files := by
  intro files
  induction files with
  | nil => intro j i h; exact absurd h (Nat.not_lt_zero i)
  | cons p rest ih =>
    intro j i h
    cases i with
    | zero =>
      exact ⟨List.mem_cons_self _ _,
        List.mem_cons_of_mem _ (List.mem_cons_self _ _)⟩
    | succ k =>
      have hk : k < rest.length := Nat.lt_of_succ_lt_succ h
      have hm := ih (j + 1) k hk
      have harith : j + 1 + k + 1 = j + (k + 1) + 1 := by omega
      rw [harith] at hm
      exact ⟨List.mem_cons_of_mem _ (List.mem_cons_of_mem _ hm.1),
        List.mem_cons_of_mem _ (List.mem_cons_of_mem _ hm.2)⟩

theorem deleteFileParams_mem :
    ∀ (files : List String) (j i : Nat) (h : i < files.length),
      ("sFileName_" ++ toString (j + i + 1), some (files.get ⟨i, h⟩))
        ∈ deleteFileParams j files := by
  intro files
  induction files with
  | nil => intro j i h; exact absurd h (Nat.not_lt_zero i)
  | cons p rest ih =>
    intro j i h
    cases i with
    | zero => exact List.mem_cons_self _ _
    | succ k =>
      have hk : k < rest.length := Nat.lt_of_succ_lt_succ h
      have hm := ih (j + 1) k hk
      have harith : j + 1 + k + 1 = j + (k + 1) + 1 := by omega
      rw [harith] at hm
      exact List.mem_cons_of_mem _ hm

theorem queue_fax_request (st : SRFaxState) (nums nums' files : List String)
    (c s a : Option String) (bn fc : String → String)
    (hnums : verify_fax_numbers nums = .ok nums')
    (hfiles : files.length ≤ 5)
    (hc : pyOrS c st.caller_id ≠ none)
    (hs : pyOrS s st.sender_email ≠ none) :
    queue_fax st nums files c s a bn fc
      = .request "Queue_Fax"
          ([("access_id", some st.access_id),
            ("access_pwd", some st.access_pwd),
            ("sCallerID", pyOrS c st.caller_id),
            ("sSenderEmail", pyOrS s st.sender_email),
            ("sFaxType", some (if nums'.length > 1 then "BROADCAST" else "SINGLE")),
            ("sToFaxNumber", some (pyJoin "|" nums')),
            ("sAccountCode", pyOrS (pyOrS a st.account_code) (some ""))]
            ++ fileParams bn fc 0 files) := by
  rcases h1 : pyOrS c st.caller_id with _ | cv
  · exact absurd h1 hc
  rcases h2 : pyOrS s st.sender_email with _ | sv
  · exact absurd h2 hs
  obtain ⟨av, h3⟩ := pyOrS_some (pyOrS a st.account_code) ""
  simp only [queue_fax, hnums, h1, h2, h3, verify_parameters,
    Nat.not_lt.mpr hfiles, if_false]

theorem delete_fax_request (st : SRFaxState) (files : List String)
    (folder : Option String) (hfiles : files.length ≤ 5) (hf : folder ≠ none) :
    delete_fax st files folder
      = .request "Delete_Fax"
          ([("access_id", some st.access_id),
            ("access_pwd", some st.access_pwd),
            ("sDirection", folder)] ++ deleteFileParams 0 files) := by
  rcases h1 : folder with _ | fv
  · exact absurd h1 hf
  simp only [delete_fax, h1, verify_parameters, Nat.not_lt.mpr hfiles, if_false]
/-- C5: queueing a fax with six or more file paths fails with the
file-count error instead of producing a request, and with one to five
paths the issued request carries `sFileName_N` / `sFileContent_N`
parameters, 1-indexed, matching the input order; deleting faxes enforces
the same five-item limit and the same `sFileName_N` numbering. -/
theorem c5_file_count_and_numbering :
    (∀ (st : SRFaxState) (nums nums' files : List String)
        (c s a : Option String) (bn fc : String → String),
      verify_fax_numbers nums = .ok nums' → 6 ≤ files.length →
        queue_fax st nums files c s a bn fc
          = .exn "More than 5 files defined in filepath")
    ∧ (∀ (st : SRFaxState) (nums nums' files : List String)
        (c s a : Option String) (bn fc : String → String),
      verify_fax_numbers nums = .ok nums' →
      1 ≤ files.length → files.length ≤ 5 →
      pyOrS c st.caller_id ≠ none → pyOrS s st.sender_email ≠ none →
        ∃ ps, queue_fax st nums files c s a bn fc = .request "Queue_Fax" ps
          ∧ ∀ (i : Nat) (h : i < files.length),
              ("sFileName_" ++ toString (i + 1), some (bn (files.get ⟨i, h⟩))) ∈ ps
              ∧ ("sFileContent_" ++ toString (i + 1),
                  some (fc (files.get ⟨i, h⟩))) ∈ ps)
    ∧ (∀ (st : SRFaxState) (files : List String) (folder : Option String),
      6 ≤ files.length →
        delete_fax st files folder = .exn "More than 5 files defined in fax_filename")
    ∧ ∀ (st : SRFaxState) (files : List String) (folder : Option String),
        1 ≤ files.length → files.length ≤ 5 → folder ≠ none →
        ∃ ps, delete_fax st files folder = .request "Delete_Fax" ps
          ∧ ∀ (i : Nat) (h : i < files.length),
              ("sFileName_" ++ toString (i + 1), some (files.get ⟨i, h⟩)) ∈ ps := by
  refine ⟨?_, ?_, ?_, ?_⟩
  · intro st nums nums' files c s a bn fc hnums hlen
    simp only [queue_fax, hnums]
    rw [if_pos (by omega : files.length > 5)]
  · intro st nums nums' files c s a bn fc hnums _ hlen hc hs
    refine ⟨_, queue_fax_request st nums nums' files c s a bn fc hnums hlen hc hs, ?_⟩
    intro i h
    have hm := fileParams_mem bn fc files 0 i h
    rw [show (0 : Nat) + i + 1 = i + 1 by omega] at hm
    exact ⟨List.mem_append_right _ hm.1, List.mem_append_right _ hm.2⟩
  · intro st files folder hlen
    simp only [delete_fax]
    rw [if_pos (by omega : files.length > 5)]
  · intro st files folder _ hlen hf
    refine ⟨_, delete_fax_request st files folder hlen hf, ?_⟩
    intro i h
    have hm := deleteFileParams_mem files 0 i h
    rw [show (0 : Nat) + i + 1 = i + 1 by omega] at hm
    exact List.mem_append_right _ hm

theorem c5_witness :
    (queue_fax ⟨"id", "pwd", some "202", some "a@b", none⟩ ["+12025550123"]
        ["a.pdf", "b.pdf", "c.pdf", "d.pdf", "e.pdf", "f.pdf"]
        none none none id (fun _ => "QUJD")
      = .exn "More than 5 files defined in filepath")
    ∧ (∃ ps, queue_fax ⟨"id", "pwd", some "202", some "a@b", none⟩ ["+12025550123"]
        ["a.pdf", "b.pdf"] none none none id (fun _ => "QUJD")
          = .request "Queue_Fax" ps
        ∧ ∀ (i : Nat) (h : i < (["a.pdf", "b.pdf"] : List String).length),
            ("sFileName_" ++ toString (i + 1),
              some (id ((["a.pdf", "b.pdf"] : List String).get ⟨i, h⟩))) ∈ ps
            ∧ ("sFileContent_" ++ toString (i + 1),
              some ((fun (_ : String) => "QUJD")
                ((["a.pdf", "b.pdf"] : List String).get ⟨i, h⟩))) ∈ ps)
    ∧ (delete_fax ⟨"id", "pwd", some "202", some "a@b", none⟩
        ["a", "b", "c", "d", "e", "f"] (some "IN")
      = .exn "More than 5 files defined in fax_filename")
    ∧ ∃ ps, delete_fax ⟨"id", "pwd", some "202", some "a@b", none⟩
        ["a", "b"] (some "IN") = .request "Delete_Fax" ps
        ∧ ∀ (i : Nat) (h : i < (["a", "b"] : List String).length),
            ("sFileName_" ++ toString (i + 1),
              some ((["a", "b"] : List String).get ⟨i, h⟩)) ∈ ps :=
  ⟨c5_file_count_and_numbering.1 _ _ ["12025550123"] _ _ _ _ _ _ rfl (by decide),
   c5_file_count_and_numbering.2.1 _ _ ["12025550123"] _ _ _ _ _ _ rfl
     (by decide) (by decide) (by decide) (by decide),
   c5_file_count_and_numbering.2.2.1 _ _ _ (by decide),
   c5_file_count_and_numbering.2.2.2 _ _ _ (by decide) (by decide) (by decide)⟩

/-- C10: queueing a fax with an empty list of file paths (and otherwise
valid inputs) raises no error: the request is issued and its parameter
mapping contains no `sFileName_N` or `sFileContent_N` entry at all. -/
theorem c10_no_lower_bound_on_files (st : SRFaxState) (nums nums' : List String)
    (c s a : Option String) (bn fc : String → String)
    (hnums : verify_fax_numbers nums = .ok nums')
    (hc : pyOrS c st.caller_id ≠ none) (hs : pyOrS s st.sender_email ≠ none) :
    ∃ ps, queue_fax st nums [] c s a bn fc = .request "Queue_Fax" ps
      ∧ ps.all (fun p => !(strStartsWith p.1 "sFileName_")
          && !(strStartsWith p.1 "sFileContent_")) = true := by
  refine ⟨_, queue_fax_request st nums nums' [] c s a bn fc hnums (by simp) hc hs, ?_⟩
  simp only [fileParams, List.append_nil, List.all_cons, List.all_nil]
  decide

theorem c10_witness :
    ∃ ps, queue_fax ⟨"id", "pwd", some "202", some "a@b", none⟩ ["+12025550123"]
        [] none none none id (fun _ => "QUJD") = .request "Queue_Fax" ps
      ∧ ps.all (fun p => !(strStartsWith p.1 "sFileName_")
          && !(strStartsWith p.1 "sFileContent_")) = true :=
  c10_no_lower_bound_on_files _ _ ["12025550123"] _ _ _ _ _ rfl
    (by decide) (by decide)
theorem charsStartWith_self (l : List Char) : charsStartWith l l = true := by
  induction l with
  | nil => rfl
  | cons c cs ih => simp [charsStartWith, ih]

theorem charsContain_append (pat pre : List Char) :
    charsContain pat (pre ++ pat) = true := by
  induction pre with
  | nil =>
    cases pat with
    | nil => rfl
    | cons c cs => simp [charsContain, charsStartWith_self]
  | cons c pre ih => simp [charsContain, ih]

theorem strContains_append (p rep : String) : strContains (p ++ rep) rep = true := by
  unfold strContains
  rw [String.data_append]
  exact charsContain_append rep.data p.data

/-- C6: on a non-Success reply the intended payload shape — a one-element
sequence holding a mapping with an `ErrorCode` key — raises REQUESTFAILED
with retry `false` and the key's value as the message; but on the
one-element string payload `["ErrorCode"]` the same branch crashes with an
uncaught `TypeError` instead of raising REQUESTFAILED, because python's
`in` on a string is substring search and the subsequent `[...]` indexes a
string with a string key. -/
theorem c6_request_failed_and_string_payload_bug :
    (∀ s : String, process_response (.dict [("Status", .sudsText "Failed"),
        ("Result", .list [.record [("ErrorCode", .sudsText s)]])])
      = .srfax ⟨"REQUESTFAILED", .pyStr s, false⟩)
    ∧ process_response (.dict [("Status", .sudsText "Failed"),
        ("Result", .list [.sudsText "ErrorCode"])])
      = .typeError "string indices must be integers" := by
  exact ⟨fun s => rfl, rfl⟩

/-- C7 counterexample: the empty mapping lacks the `Status` field, yet its
error message is the fixed string `Empty response`, which does not include
the rendered raw reply — the python-falsy check fires before the
missing-field check. -/
theorem c7_counterexample :
    process_response (.dict [])
        = .srfax ⟨"INVALIDRESPONSE", .pyStr "Empty response", true⟩
    ∧ lookupKV [] "Status" = none
    ∧ strContains "Empty response" (reprReply (.dict [])) = false :=
  ⟨rfl, rfl, by decide⟩

/-- C7 (amended): empty or absent replies, and non-empty replies lacking a
`Status` or a `Result` field, all raise INVALIDRESPONSE with retry `true`;
the error message includes the rendered raw reply exactly in the non-empty
missing-field case (the empty mapping takes the empty-reply branch whose
message is the fixed string `Empty response`). -/
theorem c7_invalid_response_classification :
    process_response .absent
        = .srfax ⟨"INVALIDRESPONSE", .pyStr "Empty response", true⟩
    ∧ process_response (.dict [])
        = .srfax ⟨"INVALIDRESPONSE", .pyStr "Empty response", true⟩
    ∧ ∀ fields : List (String × RVal), fields ≠ [] →
        (lookupKV fields "Status" = none ∨ lookupKV fields "Result" = none) →
        ∃ msg, process_response (.dict fields)
            = .srfax ⟨"INVALIDRESPONSE", .pyStr msg, true⟩
          ∧ strContains msg (reprReply (.dict fields)) = true := by
  refine ⟨rfl, rfl, ?_⟩
  intro fields hne hmiss
  refine ⟨"Status and/or Result not in response: " ++ reprReply (.dict fields),
    ?_, strContains_append _ _⟩
  have hB : fields.isEmpty = false := by
    cases fields with
    | nil => exact absurd rfl hne
    | cons x xs => rfl
  cases hs' : lookupKV fields "Status" with
  | none =>
    cases hr' : lookupKV fields "Result" with
    | none => simp [process_response, hB, hs', hr']
    | some rv => simp [process_response, hB, hs', hr']
  | some sv =>
    cases hr' : lookupKV fields "Result" with
    | none => simp [process_response, hB, hs', hr']
    | some rv =>
      rw [hs', hr'] at hmiss
      rcases hmiss with h | h <;> exact Option.noConfusion h

theorem c7_witness :
    ∃ msg, process_response (.dict [("Status", RVal.null)])
        = .srfax ⟨"INVALIDRESPONSE", .pyStr msg, true⟩
      ∧ strContains msg (reprReply (.dict [("Status", RVal.null)])) = true :=
  c7_invalid_response_classification.2.2 [("Status", RVal.null)]
    (by simp) (Or.inr rfl)

/-- C8: a reply whose status equals `Success` and whose `Result` value is
null normalizes to the boolean `true`; the substitution happens only after
the status check, so a non-Success reply with a null result still raises
(with code REQUESTFAILED) instead of returning `true`. -/
theorem c8_null_result_success_true :
    (∀ sv : RVal, valEqStr sv "Success" = true →
      process_response (.dict [("Status", sv), ("Result", .null)])
        = .ok (.bool true))
    ∧ ∀ sv : RVal, valEqStr sv "Success" = false →
        ∃ e, process_response (.dict [("Status", sv), ("Result", .null)])
            = .srfax e ∧ e.error_code = "REQUESTFAILED" := by
  constructor
  · intro sv h
    rw [process_response_pair]
    unfold processChecked
    simp [h, coerceResult]
  · intro sv h
    refine ⟨⟨"REQUESTFAILED", .null, false⟩, ?_, rfl⟩
    rw [process_response_pair]
    unfold processChecked
    simp [h, coerceResult, errmsgOf]

theorem c8_witness :
    process_response (.dict [("Status", .sudsText "Success"), ("Result", .null)])
        = .ok (.bool true)
    ∧ ∃ e, process_response (.dict [("Status", .pyStr "Failed"), ("Result", .null)])
        = .srfax e ∧ e.error_code = "REQUESTFAILED" :=
  ⟨c8_null_result_success_true.1 (.sudsText "Success") rfl,
   c8_null_result_success_true.2 (.pyStr "Failed") rfl⟩

/-- C9: on a successful no-payload reply the normalizer returns the boolean
`true`, and the one-element unwrap of `get_fax_status` and `retrieve_fax`
then applies `len` to that boolean, so both operations raise an
unclassified `TypeError` instead of returning a result. -/
theorem c9_len_of_bool_type_error (st : SRFaxState) (fid fn folder : String) :
    get_fax_status st (some fid)
        (.dict [("Status", .sudsText "Success"), ("Result", .null)])
      = .typeError "object of type bool has no len"
    ∧ retrieve_fax st (some fn) (some folder)
        (.dict [("Status", .sudsText "Success"), ("Result", .null)])
      = .typeError "object of type bool has no len" :=
  ⟨rfl, rfl⟩
